import Mathlib

/-!
Shallow embedding of the Israeli tax calculator (2025) from
`src/lib/tax-calculator.ts`, together with theorems checking the
natural-language specification against it.  JavaScript numbers are
modelled as exact rationals (ℚ); every definition mirrors the source
function of the same name.
-/

/-- Mirrors interface `TaxBracket`: `min`, optional `max` (null = unbounded),
`rate`. -/
structure TaxBracket where
  min : ℚ
  max : Option ℚ
  rate : ℚ
  deriving DecidableEq

/-- Mirrors interface `CreditPointSettings`. -/
structure CreditPointSettings where
  value_monthly : ℚ
  resident_male : ℚ
  resident_female : ℚ
  child_0_5 : ℚ
  child_6_12 : ℚ
  child_13_17 : ℚ
  child_18_plus : ℚ
  single_parent : ℚ
  new_immigrant : ℚ
  returning_resident : ℚ
  deriving DecidableEq

/-- Mirrors interface `NISettings`. -/
structure NISettings where
  threshold_monthly : ℚ
  max_monthly : ℚ
  rate_low_employee : ℚ
  rate_high_employee : ℚ
  rate_low_health : ℚ
  rate_high_health : ℚ
  deriving DecidableEq

/-- Mirrors interface `PensionContributions`. -/
structure PensionContributions where
  employee_rate : ℚ
  employer_rate : ℚ
  base_salary_only : Bool
  deriving DecidableEq

/-- Mirrors interface `StudyFundContributions`. -/
structure StudyFundContributions where
  employee_rate : ℚ
  employer_rate : ℚ
  base_salary_only : Bool
  deriving DecidableEq

/-- Mirrors the object `STANDARD_CONTRIBUTIONS_2025`. -/
structure StandardContributions where
  pension : PensionContributions
  study_fund : StudyFundContributions
  deriving DecidableEq

def STANDARD_CONTRIBUTIONS_2025 : StandardContributions :=
  { pension := { employee_rate := 0.07, employer_rate := 0.0833, base_salary_only := false }
    study_fund := { employee_rate := 0.025, employer_rate := 0.075, base_salary_only := true } }

/-- Mirrors the object `TAX_SETTINGS_2025`. -/
structure TaxSettings where
  tax_brackets_annual : List TaxBracket
  credit_points : CreditPointSettings
  national_insurance : NISettings
  deriving DecidableEq

def TAX_SETTINGS_2025 : TaxSettings :=
  { tax_brackets_annual :=
      [ { min := 0, max := some 84120, rate := 0.10 }
      , { min := 84120, max := some 120720, rate := 0.14 }
      , { min := 120720, max := some 193800, rate := 0.20 }
      , { min := 193800, max := some 269280, rate := 0.31 }
      , { min := 269280, max := some 560280, rate := 0.35 }
      , { min := 560280, max := some 721560, rate := 0.47 }
      , { min := 721560, max := none, rate := 0.50 } ]
    credit_points :=
      { value_monthly := 242
        resident_male := 2.25
        resident_female := 2.75
        child_0_5 := 1.5
        child_6_12 := 1.0
        child_13_17 := 1.0
        child_18_plus := 0.5
        single_parent := 1.5
        new_immigrant := 1.0
        returning_resident := 1.0 }
    national_insurance :=
      { threshold_monthly := 7522
        max_monthly := 50695
        rate_low_employee := 0.0104
        rate_high_employee := 0.07
        rate_low_health := 0.0323
        rate_high_health := 0.0517 } }

/-- Mirrors interface `Child`. -/
structure Child where
  age : ℚ
  deriving DecidableEq

/-- The source types `gender` as the string union `male | female`. -/
inductive Gender where
  | male
  | female
  deriving DecidableEq

/-- Mirrors interface `CalculationInput`; the optional TS fields
(`bonus_current_month?`, `custom_pension?`, `custom_study_fund?`,
`manual_deductions_monthly?`) become `Option`. -/
structure CalculationInput where
  gross_monthly : ℚ
  is_resident : Bool
  gender : Gender
  age : ℚ
  children : List Child
  single_parent : Bool
  new_immigrant : Bool
  returning_resident : Bool
  manual_credit_points : ℚ
  months_worked_in_year : ℚ
  bonus_current_month : Option ℚ
  use_standard_pension : Bool
  custom_pension : Option PensionContributions
  use_study_fund : Bool
  custom_study_fund : Option StudyFundContributions
  manual_deductions_monthly : Option ℚ
  deriving DecidableEq

/-- One entry pushed onto `breakdown` in `calculateIncomeTax`. -/
structure BracketEntry where
  bracket : TaxBracket
  amount : ℚ
  effective_rate : ℚ
  taxable_amount : ℚ
  deriving DecidableEq

/-- Return type of `calculateIncomeTax`. -/
structure IncomeTaxResult where
  tax : ℚ
  breakdown : List BracketEntry
  deriving DecidableEq

/-- `credit_points` field of `CalculationResult`. -/
structure CreditPointsInfo where
  auto : ℚ
  manual : ℚ
  total : ℚ
  value_monthly : ℚ
  total_value : ℚ
  deriving DecidableEq

/-- `ni_breakdown` / `health_breakdown` of `CalculationResult.breakdown`. -/
structure PartsBreakdown where
  low_part : ℚ
  high_part : ℚ
  deriving DecidableEq

/-- Return type of `calculateContributions` (also nested in the result
breakdown). -/
structure ContributionsResult where
  pension_employee : ℚ
  pension_employer : ℚ
  study_fund_employee : ℚ
  study_fund_employer : ℚ
  deriving DecidableEq

/-- `breakdown` field of the return value of
`calculateNationalInsuranceAndHealth`. -/
structure NIBreakdown where
  ni_breakdown : PartsBreakdown
  health_breakdown : PartsBreakdown
  deriving DecidableEq

/-- Return type of `calculateNationalInsuranceAndHealth`. -/
structure NIResult where
  national_insurance : ℚ
  health_tax : ℚ
  breakdown : NIBreakdown
  deriving DecidableEq

/-- `breakdown` field of `CalculationResult`. -/
structure ResultBreakdown where
  tax_by_bracket : List BracketEntry
  ni_breakdown : PartsBreakdown
  health_breakdown : PartsBreakdown
  contributions : ContributionsResult
  deriving DecidableEq

/-- Mirrors interface `CalculationResult`. -/
structure CalculationResult where
  gross : ℚ
  taxable_income : ℚ
  income_tax_before_credits : ℚ
  credit_points : CreditPointsInfo
  income_tax_after_credits : ℚ
  national_insurance : ℚ
  health_tax : ℚ
  pension_employee : ℚ
  study_fund_employee : ℚ
  manual_deductions : ℚ
  total_deductions : ℚ
  net : ℚ
  employer_cost : ℚ
  breakdown : ResultBreakdown
  deriving DecidableEq

/-- The span `Math.min(remainingIncome, bracketMax - bracketMin)` taxed in one
bracket, where `bracketMax = bracket.max || Infinity`: by JS truthiness a null
*or zero* `max` becomes `Infinity`, and `min(remaining, ∞ - min)` is just
`remaining`. -/
def bracketSpan (b : TaxBracket) (remainingIncome : ℚ) : ℚ :=
  match b.max with
  | some m => if m = 0 then remainingIncome else min remainingIncome (m - b.min)
  | none => remainingIncome

/-- The `for` loop of `calculateIncomeTax`.  Each iteration checks
`remainingIncome <= 0` first (the source's `break`), takes the span
`taxableInBracket` and, only when that span is positive, accumulates
`span * rate`, pushes a breakdown entry and decrements the remaining
income. -/
def incomeTaxLoop : List TaxBracket → ℚ → ℚ × List BracketEntry
  | [], _ => (0, [])
  | b :: bs, remainingIncome =>
    if remainingIncome ≤ 0 then (0, [])
    else
      let taxableInBracket := bracketSpan b remainingIncome
      if 0 < taxableInBracket then
        let rest := incomeTaxLoop bs (remainingIncome - taxableInBracket)
        (taxableInBracket * b.rate + rest.1,
         { bracket := b
           amount := taxableInBracket * b.rate
           effective_rate := b.rate
           taxable_amount := taxableInBracket } :: rest.2)
      else
        incomeTaxLoop bs remainingIncome

/-- Mirrors `calculateIncomeTax`. -/
def calculateIncomeTax (grossAnnual : ℚ) : IncomeTaxResult :=
  let r := incomeTaxLoop TAX_SETTINGS_2025.tax_brackets_annual grossAnnual
  { tax := r.1, breakdown := r.2 }

/-- The per-child branch of the `for` loop in `calculateCreditPoints`. -/
def childCredit (settings : CreditPointSettings) (child : Child) : ℚ :=
  if child.age ≤ 5 then settings.child_0_5
  else if child.age ≤ 12 then settings.child_6_12
  else if child.age ≤ 17 then settings.child_13_17
  else settings.child_18_plus

/-- Mirrors `calculateCreditPoints`. -/
def calculateCreditPoints (input : CalculationInput) : ℚ :=
  let settings := TAX_SETTINGS_2025.credit_points
  (if input.is_resident then
     match input.gender with
     | Gender.male => settings.resident_male
     | Gender.female => settings.resident_female
   else 0)
  + (input.children.map (childCredit settings)).sum
  + (if input.single_parent then settings.single_parent else 0)
  + (if input.new_immigrant then settings.new_immigrant else 0)
  + (if input.returning_resident then settings.returning_resident else 0)

/-- Mirrors `calculateNationalInsuranceAndHealth`. -/
def calculateNationalInsuranceAndHealth (grossMonthly : ℚ) (isResident : Bool) : NIResult :=
  let settings := TAX_SETTINGS_2025.national_insurance
  let cappedGross := min grossMonthly settings.max_monthly
  let lowPart := min cappedGross settings.threshold_monthly
  let highPart := max 0 (cappedGross - settings.threshold_monthly)
  let nationalInsurance :=
    (if 0 < lowPart then lowPart * settings.rate_low_employee else 0)
    + (if 0 < highPart then highPart * settings.rate_high_employee else 0)
  let healthTax :=
    (if 0 < lowPart then
       if isResident then lowPart * settings.rate_low_health else 0
     else 0)
    + (if 0 < highPart then
         if isResident then highPart * settings.rate_high_health else 0
       else 0)
  { national_insurance := nationalInsurance
    health_tax := healthTax
    breakdown :=
      { ni_breakdown :=
          { low_part := lowPart * settings.rate_low_employee
            high_part := highPart * settings.rate_high_employee }
        health_breakdown :=
          { low_part := if isResident then lowPart * settings.rate_low_health else 0
            high_part := if isResident then highPart * settings.rate_high_health else 0 } } }

/-- Mirrors `calculateContributions`.  The JS guard
`use_standard_pension || input.custom_pension` activates on either the flag
or a supplied custom pair; `input.custom_pension || STANDARD…` gives the
custom pair precedence. -/
def calculateContributions (grossMonthly : ℚ) (input : CalculationInput) : ContributionsResult :=
  let pension :=
    if input.use_standard_pension || input.custom_pension.isSome then
      let pensionSettings := input.custom_pension.getD STANDARD_CONTRIBUTIONS_2025.pension
      let pensionBase :=
        if pensionSettings.base_salary_only then input.gross_monthly else grossMonthly
      (pensionBase * pensionSettings.employee_rate, pensionBase * pensionSettings.employer_rate)
    else (0, 0)
  let studyFund :=
    if input.use_study_fund || input.custom_study_fund.isSome then
      let studyFundSettings := input.custom_study_fund.getD STANDARD_CONTRIBUTIONS_2025.study_fund
      let studyFundBase :=
        if studyFundSettings.base_salary_only then input.gross_monthly else grossMonthly
      (studyFundBase * studyFundSettings.employee_rate,
       studyFundBase * studyFundSettings.employer_rate)
    else (0, 0)
  { pension_employee := pension.1
    pension_employer := pension.2
    study_fund_employee := studyFund.1
    study_fund_employer := studyFund.2 }

/-- Mirrors `calculateSalary`. -/
def calculateSalary (input : CalculationInput) : CalculationResult :=
  let grossMonthly := input.gross_monthly + (input.bonus_current_month.getD 0)
  let contributions := calculateContributions grossMonthly input
  let manualDeductions := input.manual_deductions_monthly.getD 0
  let taxableMonthly := grossMonthly - contributions.pension_employee
  let taxableAnnual := taxableMonthly * 12
  let taxResult := calculateIncomeTax taxableAnnual
  let monthlyTaxBeforeCredits := taxResult.tax / 12
  let autoCreditPoints := calculateCreditPoints input
  let totalCreditPoints := autoCreditPoints + input.manual_credit_points
  let creditValue := totalCreditPoints * TAX_SETTINGS_2025.credit_points.value_monthly
  let monthlyTaxAfterCredits := max 0 (monthlyTaxBeforeCredits - creditValue)
  let niAndHealth := calculateNationalInsuranceAndHealth grossMonthly input.is_resident
  let totalDeductions := monthlyTaxAfterCredits
    + niAndHealth.national_insurance
    + niAndHealth.health_tax
    + contributions.pension_employee
    + contributions.study_fund_employee
    + manualDeductions
  let net := grossMonthly - totalDeductions
  let employerNI := grossMonthly * 0.0361
  let employerCost := grossMonthly + employerNI
    + contributions.pension_employer + contributions.study_fund_employer
  { gross := grossMonthly
    taxable_income := taxableMonthly
    income_tax_before_credits := monthlyTaxBeforeCredits
    credit_points :=
      { auto := autoCreditPoints
        manual := input.manual_credit_points
        total := totalCreditPoints
        value_monthly := TAX_SETTINGS_2025.credit_points.value_monthly
        total_value := creditValue }
    income_tax_after_credits := monthlyTaxAfterCredits
    national_insurance := niAndHealth.national_insurance
    health_tax := niAndHealth.health_tax
    pension_employee := contributions.pension_employee
    study_fund_employee := contributions.study_fund_employee
    manual_deductions := manualDeductions
    total_deductions := totalDeductions
    net := net
    employer_cost := employerCost
    breakdown :=
      { tax_by_bracket := taxResult.breakdown
        ni_breakdown := niAndHealth.breakdown.ni_breakdown
        health_breakdown := niAndHealth.breakdown.health_breakdown
        contributions := contributions } }

/-- Spec-side restatement (from the spec's words, for comparison with
`calculateIncomeTax`): "the sum over the brackets of span × rate, where each
bracket's span is min(remaining income, bracket upper bound − bracket lower
bound) with the top bracket unbounded", decrementing the remaining income by
each span. -/
def bracketSpanSum : List TaxBracket → ℚ → ℚ
  | [], _ => 0
  | b :: bs, remainingIncome =>
    let span :=
      match b.max with
      | some m => min remainingIncome (m - b.min)
      | none => remainingIncome
    span * b.rate + bracketSpanSum bs (remainingIncome - span)

/-- The end-to-end profile of the spec's worked example: `gross_monthly=15000`,
resident, male, age 30, no children, no flags, no pension/study-fund use, zero
manual credits. -/
def c1Input : CalculationInput :=
  { gross_monthly := 15000
    is_resident := true
    gender := Gender.male
    age := 30
    children := []
    single_parent := false
    new_immigrant := false
    returning_resident := false
    manual_credit_points := 0
    months_worked_in_year := 12
    bonus_current_month := none
    use_standard_pension := false
    custom_pension := none
    use_study_fund := false
    custom_study_fund := none
    manual_deductions_monthly := none }

/-- A well-formed input (non-negative gross, bonus, deductions, ages and rate
pairs) whose result nonetheless carries negative fields besides `net`: the
manual credit-point adjustment is `-1` and the custom pension employee rate is
`2`. -/
def c3CexInput : CalculationInput :=
  { c1Input with
      gross_monthly := 1000
      manual_credit_points := -1
      custom_pension := some { employee_rate := 2, employer_rate := 0, base_salary_only := false } }

/-- A profile exercising `calculateContributions`: a custom pension pair
(base-salary-only, rates 6% / 6.5%) supplied alongside the standard-pension
flag, and the standard study fund selected by flag alone. -/
def c8Input : CalculationInput :=
  { c1Input with
      gross_monthly := 10000
      bonus_current_month := some 2000
      use_standard_pension := true
      custom_pension := some { employee_rate := 0.06, employer_rate := 0.065, base_salary_only := true }
      use_study_fund := true
      custom_study_fund := none }

theorem ite_pos_mul (a r : ℚ) (ha : 0 ≤ a) : (if 0 < a then a * r else 0) = a * r := by
  rcases eq_or_lt_of_le ha with h | h
  · simp [← h]
  · simp [h]

/-- For a non-negative gross, the guarded accumulations in
`calculateNationalInsuranceAndHealth` collapse to the unguarded low/high
products. -/
theorem niAmounts (g : ℚ) (res : Bool) (hg : 0 ≤ g) :
    calculateNationalInsuranceAndHealth g res =
      { national_insurance :=
          min (min g 50695) 7522 * 0.0104 + max 0 (min g 50695 - 7522) * 0.07
        health_tax :=
          if res then min (min g 50695) 7522 * 0.0323 + max 0 (min g 50695 - 7522) * 0.0517
          else 0
        breakdown :=
          { ni_breakdown :=
              { low_part := min (min g 50695) 7522 * 0.0104
                high_part := max 0 (min g 50695 - 7522) * 0.07 }
            health_breakdown :=
              { low_part := if res then min (min g 50695) 7522 * 0.0323 else 0
                high_part := if res then max 0 (min g 50695 - 7522) * 0.0517 else 0 } } } := by
  have hlow : (0:ℚ) ≤ min (min g 50695) 7522 :=
    le_min (le_min hg (by norm_num)) (by norm_num)
  have hhigh : (0:ℚ) ≤ max 0 (min g 50695 - 7522) := le_max_left _ _
  cases res
  · simp only [calculateNationalInsuranceAndHealth, TAX_SETTINGS_2025, NIResult.mk.injEq,
      NIBreakdown.mk.injEq, PartsBreakdown.mk.injEq]
    rw [ite_pos_mul _ _ hlow, ite_pos_mul _ _ hhigh]
    simp
  · simp only [calculateNationalInsuranceAndHealth, TAX_SETTINGS_2025, NIResult.mk.injEq,
      NIBreakdown.mk.injEq, PartsBreakdown.mk.injEq]
    simp only [if_true]
    rw [ite_pos_mul _ _ hlow, ite_pos_mul _ _ hhigh, ite_pos_mul _ _ hlow,
      ite_pos_mul _ _ hhigh]
    simp

theorem bracketSpan_le (b : TaxBracket) (r : ℚ) : bracketSpan b r ≤ r := by
  unfold bracketSpan
  rcases b.max with _ | m
  · exact le_refl r
  · dsimp only
    split
    · exact le_refl r
    · exact min_le_left _ _

theorem bracketSpan_mono (b : TaxBracket) {r s : ℚ} (h : r ≤ s) :
    bracketSpan b r ≤ bracketSpan b s := by
  unfold bracketSpan
  rcases b.max with _ | m
  · exact h
  · dsimp only
    split
    · exact h
    · exact min_le_min h (le_refl _)

theorem bracketSpan_remainder_mono (b : TaxBracket) {r s : ℚ} (h : r ≤ s) :
    r - bracketSpan b r ≤ s - bracketSpan b s := by
  obtain ⟨bmin, bmax, brate⟩ := b
  cases bmax with
  | none => simp [bracketSpan]
  | some m =>
    by_cases hm : m = 0
    · simp [bracketSpan, hm]
    · simp only [bracketSpan, if_neg hm]
      rcases le_total r (m - bmin) with h1 | h1 <;>
        rcases le_total s (m - bmin) with h2 | h2 <;>
        simp only [min_eq_left, min_eq_right, h1, h2] <;> linarith

theorem bracketSpan_nonpos (b : TaxBracket) {r : ℚ} (hr : 0 < r)
    (hs : bracketSpan b r ≤ 0) (s : ℚ) : bracketSpan b s ≤ 0 := by
  obtain ⟨bmin, bmax, brate⟩ := b
  cases bmax with
  | none => simp only [bracketSpan] at hs; linarith
  | some m =>
    by_cases hm : m = 0
    · simp only [bracketSpan, if_pos hm] at hs; linarith
    · simp only [bracketSpan, if_neg hm] at hs ⊢
      rcases min_le_iff.mp hs with h | h
      · linarith
      · exact le_trans (min_le_right _ _) h

theorem incomeTaxLoop_nonpos (brs : List TaxBracket) {r : ℚ} (hr : r ≤ 0) :
    incomeTaxLoop brs r = (0, []) := by
  cases brs with
  | nil => rfl
  | cons b bs => simp [incomeTaxLoop, hr]

theorem incomeTaxLoop_tax_nonneg :
    ∀ (brs : List TaxBracket), (∀ b ∈ brs, 0 ≤ b.rate) →
      ∀ r : ℚ, 0 ≤ (incomeTaxLoop brs r).1
  | [], _, r => by simp [incomeTaxLoop]
  | b :: bs, h, r => by
    have hb : 0 ≤ b.rate := h b (List.mem_cons_self b bs)
    have hbs : ∀ x ∈ bs, 0 ≤ x.rate := fun x hx => h x (List.mem_cons_of_mem b hx)
    by_cases hr : r ≤ 0
    · simp [incomeTaxLoop, hr]
    · simp only [incomeTaxLoop, if_neg hr]
      by_cases hspan : 0 < bracketSpan b r
      · simp only [if_pos hspan]
        have h1 : 0 ≤ bracketSpan b r * b.rate := mul_nonneg (le_of_lt hspan) hb
        have h2 : 0 ≤ (incomeTaxLoop bs (r - bracketSpan b r)).1 :=
          incomeTaxLoop_tax_nonneg bs hbs _
        exact add_nonneg h1 h2
      · simp only [if_neg hspan]
        exact incomeTaxLoop_tax_nonneg bs hbs r

theorem incomeTaxLoop_breakdown_nonneg :
    ∀ (brs : List TaxBracket), (∀ b ∈ brs, 0 ≤ b.rate) →
      ∀ r : ℚ, ∀ e ∈ (incomeTaxLoop brs r).2, 0 ≤ e.amount ∧ 0 ≤ e.taxable_amount
  | [], _, r => by simp [incomeTaxLoop]
  | b :: bs, h, r => by
    have hb : 0 ≤ b.rate := h b (List.mem_cons_self b bs)
    have hbs : ∀ x ∈ bs, 0 ≤ x.rate := fun x hx => h x (List.mem_cons_of_mem b hx)
    by_cases hr : r ≤ 0
    · simp [incomeTaxLoop, hr]
    · simp only [incomeTaxLoop, if_neg hr]
      by_cases hspan : 0 < bracketSpan b r
      · simp only [if_pos hspan]
        intro e he
        rcases List.mem_cons.mp he with he1 | he2
        · rw [he1]
          exact ⟨mul_nonneg (le_of_lt hspan) hb, le_of_lt hspan⟩
        · exact incomeTaxLoop_breakdown_nonneg bs hbs _ e he2
      · simp only [if_neg hspan]
        exact incomeTaxLoop_breakdown_nonneg bs hbs r

theorem incomeTaxLoop_tax_mono :
    ∀ (brs : List TaxBracket), (∀ b ∈ brs, 0 ≤ b.rate) →
      ∀ r s : ℚ, r ≤ s → (incomeTaxLoop brs r).1 ≤ (incomeTaxLoop brs s).1
  | [], _, r, s, _ => by simp [incomeTaxLoop]
  | b :: bs, h, r, s, hrs => by
    have hb : 0 ≤ b.rate := h b (List.mem_cons_self b bs)
    have hbs : ∀ x ∈ bs, 0 ≤ x.rate := fun x hx => h x (List.mem_cons_of_mem b hx)
    by_cases hr : r ≤ 0
    · rw [incomeTaxLoop_nonpos (b :: bs) hr]
      exact incomeTaxLoop_tax_nonneg (b :: bs) h s
    · have hs : ¬ s ≤ 0 := fun hs0 => hr (le_trans hrs hs0)
      simp only [incomeTaxLoop, if_neg hr, if_neg hs]
      by_cases hspan : 0 < bracketSpan b r
      · have hspan' : 0 < bracketSpan b s := lt_of_lt_of_le hspan (bracketSpan_mono b hrs)
        simp only [if_pos hspan, if_pos hspan']
        have h1 : bracketSpan b r * b.rate ≤ bracketSpan b s * b.rate :=
          mul_le_mul_of_nonneg_right (bracketSpan_mono b hrs) hb
        have h2 : (incomeTaxLoop bs (r - bracketSpan b r)).1
            ≤ (incomeTaxLoop bs (s - bracketSpan b s)).1 :=
          incomeTaxLoop_tax_mono bs hbs _ _ (bracketSpan_remainder_mono b hrs)
        exact add_le_add h1 h2
      · have hspan' : ¬ 0 < bracketSpan b s := by
          have := bracketSpan_nonpos b (lt_of_not_le hr) (le_of_not_lt hspan) s
          exact not_lt.mpr this
        simp only [if_neg hspan, if_neg hspan']
        exact incomeTaxLoop_tax_mono bs hbs r s hrs

theorem bracketSpanSum_zero :
    ∀ (brs : List TaxBracket),
      (∀ b ∈ brs, ∀ m, b.max = some m → b.min ≤ m) →
      bracketSpanSum brs 0 = 0
  | [], _ => rfl
  | b :: bs, h => by
    have hb : ∀ m, b.max = some m → b.min ≤ m := h b (List.mem_cons_self b bs)
    have hbs : ∀ x ∈ bs, ∀ m, x.max = some m → x.min ≤ m :=
      fun x hx => h x (List.mem_cons_of_mem b hx)
    obtain ⟨bmin, bmax, brate⟩ := b
    cases bmax with
    | none =>
      simp only [bracketSpanSum, zero_mul, zero_add, sub_zero]
      exact bracketSpanSum_zero bs hbs
    | some m =>
      have hw : (0:ℚ) ≤ m - bmin := by
        have := hb m rfl
        simp only at this
        linarith
      simp only [bracketSpanSum]
      rw [min_eq_left hw]
      simp only [zero_mul, zero_add, sub_zero]
      exact bracketSpanSum_zero bs hbs

theorem incomeTaxLoop_eq_bracketSpanSum :
    ∀ (brs : List TaxBracket),
      (∀ b ∈ brs, ∀ m, b.max = some m → b.min < m ∧ 0 < m) →
      ∀ r : ℚ, 0 ≤ r → (incomeTaxLoop brs r).1 = bracketSpanSum brs r
  | [], _, r, _ => by simp [incomeTaxLoop, bracketSpanSum]
  | b :: bs, h, r, hr => by
    have hb : ∀ m, b.max = some m → b.min < m ∧ 0 < m := h b (List.mem_cons_self b bs)
    have hbs : ∀ x ∈ bs, ∀ m, x.max = some m → x.min < m ∧ 0 < m :=
      fun x hx => h x (List.mem_cons_of_mem b hx)
    have hbs' : ∀ x ∈ bs, ∀ m, x.max = some m → x.min ≤ m :=
      fun x hx m hm => le_of_lt (hbs x hx m hm).1
    rcases eq_or_lt_of_le hr with hr0 | hr0
    · rw [← hr0]
      rw [incomeTaxLoop_nonpos (b :: bs) (le_refl 0)]
      exact (bracketSpanSum_zero (b :: bs)
        (fun x hx m hm => le_of_lt (h x hx m hm).1)).symm
    · obtain ⟨bmin, bmax, brate⟩ := b
      cases bmax with
      | none =>
        have hspan : bracketSpan ⟨bmin, none, brate⟩ r = r := rfl
        simp only [incomeTaxLoop, if_neg (not_le.mpr hr0), hspan, if_pos hr0,
          bracketSpanSum, sub_self]
        rw [incomeTaxLoop_nonpos bs (le_refl 0)]
        rw [bracketSpanSum_zero bs hbs']
      | some m =>
        have hm := hb m rfl
        simp only at hm
        have hm0 : m ≠ 0 := ne_of_gt hm.2
        have hw : (0:ℚ) < m - bmin := by linarith [hm.1]
        have hspan : bracketSpan ⟨bmin, some m, brate⟩ r = min r (m - bmin) := by
          simp [bracketSpan, hm0]
        have hspanpos : 0 < min r (m - bmin) := lt_min hr0 hw
        simp only [incomeTaxLoop, if_neg (not_le.mpr hr0), hspan, if_pos hspanpos,
          bracketSpanSum]
        have hrem : (0:ℚ) ≤ r - min r (m - bmin) := by
          have : min r (m - bmin) ≤ r := min_le_left _ _
          linarith
        rw [incomeTaxLoop_eq_bracketSpanSum bs hbs _ hrem]

/-- Every rate in the 2025 bracket table is non-negative. -/
theorem brackets2025_rate_nonneg :
    ∀ b ∈ TAX_SETTINGS_2025.tax_brackets_annual, 0 ≤ b.rate := by
  intro b hb
  fin_cases hb <;> norm_num

/-- Every bounded bracket of the 2025 table has `min < max` and `0 < max`. -/
theorem brackets2025_bounds : ∀ b ∈ TAX_SETTINGS_2025.tax_brackets_annual,
    ∀ m, b.max = some m → b.min < m ∧ 0 < m := by
  intro b hb
  fin_cases hb <;> intro m hm <;> simp_all <;> norm_num [← hm]

/-- C1: for the input `gross_monthly = 15000`, resident, male, age 30, no
children, no flags, no pension or study-fund use, zero manual credit points,
no bonus and no manual deductions, `calculateSalary` returns
`net = gross − incomeTaxAfterCredits − insurance − healthTax`, where
`incomeTaxAfterCredits = max(0, (bracket tax on 180000 annual)/12 − 2.25 × 242)`
and insurance/healthTax are the social amounts on 15000. -/
theorem c1_end_to_end :
    (calculateSalary c1Input).gross = 15000 ∧
    (calculateSalary c1Input).income_tax_after_credits
      = max 0 ((calculateIncomeTax 180000).tax / 12 - 2.25 * 242) ∧
    (calculateSalary c1Input).national_insurance
      = (calculateNationalInsuranceAndHealth 15000 true).national_insurance ∧
    (calculateSalary c1Input).health_tax
      = (calculateNationalInsuranceAndHealth 15000 true).health_tax ∧
    (calculateSalary c1Input).net
      = 15000 - (calculateSalary c1Input).income_tax_after_credits
          - (calculateSalary c1Input).national_insurance
          - (calculateSalary c1Input).health_tax := by
  norm_num [calculateSalary, calculateContributions, calculateCreditPoints,
    calculateNationalInsuranceAndHealth, calculateIncomeTax, incomeTaxLoop, bracketSpan,
    c1Input, TAX_SETTINGS_2025, STANDARD_CONTRIBUTIONS_2025]

/-- C2: for every non-negative income, `calculateIncomeTax(income).tax` equals
the sum over the brackets of span × rate (span = min(remaining income, upper −
lower), top bracket unbounded, as restated by `bracketSpanSum`), and the tax is
monotonically non-decreasing in the income. -/
theorem c2_bracket_sum_and_monotone :
    (∀ x : ℚ, 0 ≤ x →
       (calculateIncomeTax x).tax = bracketSpanSum TAX_SETTINGS_2025.tax_brackets_annual x) ∧
    (∀ a b : ℚ, 0 ≤ a → a ≤ b →
       (calculateIncomeTax a).tax ≤ (calculateIncomeTax b).tax) := by
  constructor
  · intro x hx
    exact incomeTaxLoop_eq_bracketSpanSum _ brackets2025_bounds x hx
  · intro a b ha hab
    exact incomeTaxLoop_tax_mono _ brackets2025_rate_nonneg a b hab

theorem c2_witness :
    ((0:ℚ) ≤ 100000 ∧ (100000:ℚ) ≤ 200000) ∧
    (calculateIncomeTax 100000).tax
      = bracketSpanSum TAX_SETTINGS_2025.tax_brackets_annual 100000 ∧
    (calculateIncomeTax 100000).tax ≤ (calculateIncomeTax 200000).tax :=
  ⟨⟨by norm_num, by norm_num⟩,
   c2_bracket_sum_and_monotone.1 100000 (by norm_num),
   c2_bracket_sum_and_monotone.2 100000 200000 (by norm_num) (by norm_num)⟩

/-- C4: `calculateCreditPoints` classifies every child into exactly one of four
disjoint age bands with inclusive upper bounds and adds that band's
coefficient; with the 2025 table, a resident male with no children and no
flags yields 2.25 points, adding one child aged 4 yields 3.75, and
additionally setting `single_parent` adds a further 1.5 (total 5.25). -/
theorem c4_credit_point_bands :
    (∀ c : Child,
      (c.age ≤ 5 ∧ childCredit TAX_SETTINGS_2025.credit_points c = 1.5) ∨
      (5 < c.age ∧ c.age ≤ 12 ∧ childCredit TAX_SETTINGS_2025.credit_points c = 1.0) ∨
      (12 < c.age ∧ c.age ≤ 17 ∧ childCredit TAX_SETTINGS_2025.credit_points c = 1.0) ∨
      (17 < c.age ∧ childCredit TAX_SETTINGS_2025.credit_points c = 0.5)) ∧
    calculateCreditPoints c1Input = 2.25 ∧
    calculateCreditPoints { c1Input with children := [{ age := 4 }] } = 3.75 ∧
    calculateCreditPoints
      { c1Input with children := [{ age := 4 }], single_parent := true } = 5.25 := by
  refine ⟨fun c => ?_, ?_, ?_, ?_⟩
  · by_cases h1 : c.age ≤ 5
    · exact Or.inl ⟨h1, by simp [childCredit, h1, TAX_SETTINGS_2025]⟩
    · push_neg at h1
      by_cases h2 : c.age ≤ 12
      · exact Or.inr (Or.inl ⟨h1, h2, by
          simp [childCredit, not_le.mpr h1, h2, TAX_SETTINGS_2025]⟩)
      · push_neg at h2
        by_cases h3 : c.age ≤ 17
        · exact Or.inr (Or.inr (Or.inl ⟨h2, h3, by
            simp [childCredit, not_le.mpr h1, not_le.mpr h2, h3, TAX_SETTINGS_2025]⟩))
        · push_neg at h3
          exact Or.inr (Or.inr (Or.inr ⟨h3, by
            simp [childCredit, not_le.mpr h1, not_le.mpr h2, not_le.mpr h3,
              TAX_SETTINGS_2025]⟩))
  · norm_num [calculateCreditPoints, c1Input, TAX_SETTINGS_2025]
  · norm_num [calculateCreditPoints, c1Input, TAX_SETTINGS_2025, childCredit]
  · norm_num [calculateCreditPoints, c1Input, TAX_SETTINGS_2025, childCredit]

/-- C5: `calculateNationalInsuranceAndHealth` caps gross at the configured
monthly maximum and splits it at the threshold: at gross 5000 (resident) it
returns insurance `5000 × 0.0104` and health `5000 × 0.0323` with zero
high-part components; at gross 60000 it caps at 50695 and returns low part
`7522 × 0.0104 + 7522 × 0.0323` and high part `(50695 − 7522) × (0.07 + 0.0517)`. -/
theorem c5_social_examples :
    (calculateNationalInsuranceAndHealth 5000 true).national_insurance = 5000 * 0.0104 ∧
    (calculateNationalInsuranceAndHealth 5000 true).health_tax = 5000 * 0.0323 ∧
    (calculateNationalInsuranceAndHealth 5000 true).breakdown.ni_breakdown.high_part = 0 ∧
    (calculateNationalInsuranceAndHealth 5000 true).breakdown.health_breakdown.high_part = 0 ∧
    (calculateNationalInsuranceAndHealth 60000 true).breakdown.ni_breakdown.low_part
      + (calculateNationalInsuranceAndHealth 60000 true).breakdown.health_breakdown.low_part
      = 7522 * 0.0104 + 7522 * 0.0323 ∧
    (calculateNationalInsuranceAndHealth 60000 true).breakdown.ni_breakdown.high_part
      + (calculateNationalInsuranceAndHealth 60000 true).breakdown.health_breakdown.high_part
      = (50695 - 7522) * (0.07 + 0.0517) := by
  norm_num [calculateNationalInsuranceAndHealth, TAX_SETTINGS_2025]

/-- C6: for every non-negative gross, with `isResident = false` the health tax
and both health breakdown parts are zero, while the insurance amount equals
the resident insurance amount for the same gross and is the low rate on the
low portion plus the high rate on the high portion. -/
theorem c6_nonresident (g : ℚ) (hg : 0 ≤ g) :
    (calculateNationalInsuranceAndHealth g false).health_tax = 0 ∧
    (calculateNationalInsuranceAndHealth g false).breakdown.health_breakdown.low_part = 0 ∧
    (calculateNationalInsuranceAndHealth g false).breakdown.health_breakdown.high_part = 0 ∧
    (calculateNationalInsuranceAndHealth g false).national_insurance
      = (calculateNationalInsuranceAndHealth g true).national_insurance ∧
    (calculateNationalInsuranceAndHealth g false).national_insurance
      = min (min g 50695) 7522 * 0.0104 + max 0 (min g 50695 - 7522) * 0.07 := by
  rw [niAmounts g false hg, niAmounts g true hg]
  simp

theorem c6_witness :
    (0:ℚ) ≤ 60000 ∧
    ((calculateNationalInsuranceAndHealth 60000 false).health_tax = 0 ∧
     (calculateNationalInsuranceAndHealth 60000 false).breakdown.health_breakdown.low_part = 0 ∧
     (calculateNationalInsuranceAndHealth 60000 false).breakdown.health_breakdown.high_part = 0 ∧
     (calculateNationalInsuranceAndHealth 60000 false).national_insurance
       = (calculateNationalInsuranceAndHealth 60000 true).national_insurance ∧
     (calculateNationalInsuranceAndHealth 60000 false).national_insurance
       = min (min (60000:ℚ) 50695) 7522 * 0.0104
           + max 0 (min (60000:ℚ) 50695 - 7522) * 0.07) :=
  ⟨by norm_num, c6_nonresident 60000 (by norm_num)⟩

/-- C7: for every annual taxable income ≤ 0, `calculateIncomeTax` returns zero
total tax and an empty per-bracket breakdown. -/
theorem c7_nonpositive_income (x : ℚ) (hx : x ≤ 0) :
    (calculateIncomeTax x).tax = 0 ∧ (calculateIncomeTax x).breakdown = [] := by
  simp [calculateIncomeTax, incomeTaxLoop, TAX_SETTINGS_2025, hx]

theorem c7_witness :
    (-5:ℚ) ≤ 0 ∧
    ((calculateIncomeTax (-5)).tax = 0 ∧ (calculateIncomeTax (-5)).breakdown = []) :=
  ⟨by norm_num, c7_nonpositive_income (-5) (by norm_num)⟩

/-- C9: two inputs to `calculateSalary` that differ only in
`months_worked_in_year` produce identical results; the field has no effect on
any output. -/
theorem c9_months_inert (input : CalculationInput) (m : ℚ) :
    calculateSalary { input with months_worked_in_year := m } = calculateSalary input := by
  cases input
  rfl

/-- C10: for every non-negative gross and either residency value, the low/high
breakdown parts of `calculateNationalInsuranceAndHealth` sum to the returned
insurance and health-tax totals. -/
theorem c10_breakdown_consistency (g : ℚ) (res : Bool) (hg : 0 ≤ g) :
    (calculateNationalInsuranceAndHealth g res).breakdown.ni_breakdown.low_part
      + (calculateNationalInsuranceAndHealth g res).breakdown.ni_breakdown.high_part
      = (calculateNationalInsuranceAndHealth g res).national_insurance ∧
    (calculateNationalInsuranceAndHealth g res).breakdown.health_breakdown.low_part
      + (calculateNationalInsuranceAndHealth g res).breakdown.health_breakdown.high_part
      = (calculateNationalInsuranceAndHealth g res).health_tax := by
  rw [niAmounts g res hg]
  cases res <;> simp

theorem c10_witness :
    (0:ℚ) ≤ 9000 ∧
    ((calculateNationalInsuranceAndHealth 9000 true).breakdown.ni_breakdown.low_part
       + (calculateNationalInsuranceAndHealth 9000 true).breakdown.ni_breakdown.high_part
       = (calculateNationalInsuranceAndHealth 9000 true).national_insurance ∧
     (calculateNationalInsuranceAndHealth 9000 true).breakdown.health_breakdown.low_part
       + (calculateNationalInsuranceAndHealth 9000 true).breakdown.health_breakdown.high_part
       = (calculateNationalInsuranceAndHealth 9000 true).health_tax) :=
  ⟨by norm_num, c10_breakdown_consistency 9000 true (by norm_num)⟩

/-- C8: in `calculateContributions`, each of pension and study fund is active
exactly when its "use standard" flag is set or a custom rate pair is supplied,
with the custom pair taking precedence when both are present; the contribution
base is the combined gross unless the active pair's `base_salary_only` flag is
set (then the base salary alone); employee and employer amounts are
base × rate, and an inactive contribution reports zero on both sides. -/
theorem c8_contributions (g : ℚ) (input : CalculationInput) :
    ((∀ p, input.custom_pension = some p →
        (calculateContributions g input).pension_employee
          = (if p.base_salary_only then input.gross_monthly else g) * p.employee_rate ∧
        (calculateContributions g input).pension_employer
          = (if p.base_salary_only then input.gross_monthly else g) * p.employer_rate) ∧
     (input.custom_pension = none → input.use_standard_pension = true →
        (calculateContributions g input).pension_employee = g * 0.07 ∧
        (calculateContributions g input).pension_employer = g * 0.0833) ∧
     (input.custom_pension = none → input.use_standard_pension = false →
        (calculateContributions g input).pension_employee = 0 ∧
        (calculateContributions g input).pension_employer = 0)) ∧
    ((∀ s, input.custom_study_fund = some s →
        (calculateContributions g input).study_fund_employee
          = (if s.base_salary_only then input.gross_monthly else g) * s.employee_rate ∧
        (calculateContributions g input).study_fund_employer
          = (if s.base_salary_only then input.gross_monthly else g) * s.employer_rate) ∧
     (input.custom_study_fund = none → input.use_study_fund = true →
        (calculateContributions g input).study_fund_employee = input.gross_monthly * 0.025 ∧
        (calculateContributions g input).study_fund_employer = input.gross_monthly * 0.075) ∧
     (input.custom_study_fund = none → input.use_study_fund = false →
        (calculateContributions g input).study_fund_employee = 0 ∧
        (calculateContributions g input).study_fund_employer = 0)) := by
  constructor
  · refine ⟨fun p hp => ?_, fun hn hu => ?_, fun hn hu => ?_⟩
    · simp [calculateContributions, hp]
    · simp [calculateContributions, hn, hu, STANDARD_CONTRIBUTIONS_2025]
    · simp [calculateContributions, hn, hu]
  · refine ⟨fun s hs => ?_, fun hn hu => ?_, fun hn hu => ?_⟩
    · simp [calculateContributions, hs]
    · simp [calculateContributions, hn, hu, STANDARD_CONTRIBUTIONS_2025]
    · simp [calculateContributions, hn, hu]

theorem c8_witness :
    (calculateContributions 12000 c8Input).pension_employee = 600 ∧
    (calculateContributions 12000 c8Input).pension_employer = 650 ∧
    (calculateContributions 12000 c8Input).study_fund_employee = 250 ∧
    (calculateContributions 12000 c8Input).study_fund_employer = 750 := by
  have h := c8_contributions 12000 c8Input
  have hp := h.1.1
    { employee_rate := 0.06, employer_rate := 0.065, base_salary_only := true } rfl
  have hs := h.2.2.1 rfl rfl
  refine ⟨?_, ?_, ?_, ?_⟩
  · rw [hp.1]; norm_num [c8Input, c1Input]
  · rw [hp.2]; norm_num [c8Input, c1Input]
  · rw [hs.1]; norm_num [c8Input, c1Input]
  · rw [hs.2]; norm_num [c8Input, c1Input]

theorem base_rate_bounds (x g rate : ℚ) (c : Bool) (hx : 0 ≤ x) (hxg : x ≤ g)
    (hr : 0 ≤ rate) (hr1 : rate ≤ 1) :
    0 ≤ (if c then x else g) * rate ∧ (if c then x else g) * rate ≤ g := by
  have hg : 0 ≤ g := le_trans hx hxg
  have hb0 : 0 ≤ (if c then x else g) := by cases c <;> simp [hx, hg]
  have hbg : (if c then x else g) ≤ g := by cases c <;> simp [hxg]
  exact ⟨mul_nonneg hb0 hr, le_trans (mul_le_of_le_one_right hb0 hr1) hbg⟩

/-- Each contribution amount is non-negative, and the pension employee amount
stays at or below the combined gross when the employee rate is at most 1. -/
theorem contributions_bounds (g : ℚ) (input : CalculationInput)
    (hg0 : 0 ≤ input.gross_monthly) (hgg : input.gross_monthly ≤ g)
    (hp : ∀ p, input.custom_pension = some p →
           0 ≤ p.employee_rate ∧ p.employee_rate ≤ 1 ∧ 0 ≤ p.employer_rate)
    (hs : ∀ s, input.custom_study_fund = some s → 0 ≤ s.employee_rate ∧ 0 ≤ s.employer_rate) :
    0 ≤ (calculateContributions g input).pension_employee ∧
    (calculateContributions g input).pension_employee ≤ g ∧
    0 ≤ (calculateContributions g input).pension_employer ∧
    0 ≤ (calculateContributions g input).study_fund_employee ∧
    0 ≤ (calculateContributions g input).study_fund_employer := by
  have hg : 0 ≤ g := le_trans hg0 hgg
  have hpension : 0 ≤ (calculateContributions g input).pension_employee ∧
      (calculateContributions g input).pension_employee ≤ g ∧
      0 ≤ (calculateContributions g input).pension_employer := by
    rcases hcp : input.custom_pension with _ | p
    · by_cases hflag : input.use_standard_pension = true
      · simp only [calculateContributions, hcp, hflag, Option.isSome_none, Bool.true_or,
          if_pos, Option.getD_none, STANDARD_CONTRIBUTIONS_2025, Bool.false_eq_true,
          if_false]
        refine ⟨mul_nonneg hg (by norm_num), ?_, mul_nonneg hg (by norm_num)⟩
        linarith
      · have hflag' : input.use_standard_pension = false := by
          cases hfb : input.use_standard_pension
          · rfl
          · exact absurd hfb hflag
        simp [calculateContributions, hcp, hflag', hg]
    · have hrates := hp p hcp
      simp only [calculateContributions, hcp, Option.isSome_some, Bool.or_true,
        if_pos, Option.getD_some]
      refine ⟨?_, ?_, ?_⟩
      · exact (base_rate_bounds input.gross_monthly g p.employee_rate p.base_salary_only
          hg0 hgg hrates.1 hrates.2.1).1
      · exact (base_rate_bounds input.gross_monthly g p.employee_rate p.base_salary_only
          hg0 hgg hrates.1 hrates.2.1).2
      · have hb0 : 0 ≤ (if p.base_salary_only then input.gross_monthly else g) := by
          cases p.base_salary_only <;> simp [hg0, hg]
        exact mul_nonneg hb0 hrates.2.2
  have hstudy : 0 ≤ (calculateContributions g input).study_fund_employee ∧
      0 ≤ (calculateContributions g input).study_fund_employer := by
    rcases hcs : input.custom_study_fund with _ | s
    · by_cases hflag : input.use_study_fund = true
      · simp only [calculateContributions, hcs, hflag, Option.isSome_none, Bool.true_or,
          if_pos, Option.getD_none, STANDARD_CONTRIBUTIONS_2025, if_true]
        exact ⟨mul_nonneg hg0 (by norm_num), mul_nonneg hg0 (by norm_num)⟩
      · have hflag' : input.use_study_fund = false := by
          cases hfb : input.use_study_fund
          · rfl
          · exact absurd hfb hflag
        simp [calculateContributions, hcs, hflag']
    · have hrates := hs s hcs
      simp only [calculateContributions, hcs, Option.isSome_some, Bool.or_true,
        if_pos, Option.getD_some]
      have hb0 : 0 ≤ (if s.base_salary_only then input.gross_monthly else g) := by
        cases s.base_salary_only <;> simp [hg0, hg]
      exact ⟨mul_nonneg hb0 hrates.1, mul_nonneg hb0 hrates.2⟩
  exact ⟨hpension.1, hpension.2.1, hpension.2.2, hstudy.1, hstudy.2⟩

theorem childCredit_nonneg (c : Child) :
    0 ≤ childCredit TAX_SETTINGS_2025.credit_points c := by
  unfold childCredit
  split_ifs <;> norm_num [TAX_SETTINGS_2025]

theorem calculateCreditPoints_nonneg (input : CalculationInput) :
    0 ≤ calculateCreditPoints input := by
  unfold calculateCreditPoints
  refine add_nonneg (add_nonneg (add_nonneg (add_nonneg ?_ ?_) ?_) ?_) ?_
  · cases input.is_resident
    · simp
    · cases input.gender <;> norm_num [TAX_SETTINGS_2025]
  · refine List.sum_nonneg ?_
    intro x hx
    rcases List.mem_map.mp hx with ⟨c, _, hc⟩
    rw [← hc]
    exact childCredit_nonneg c
  · cases input.single_parent <;> norm_num [TAX_SETTINGS_2025]
  · cases input.new_immigrant <;> norm_num [TAX_SETTINGS_2025]
  · cases input.returning_resident <;> norm_num [TAX_SETTINGS_2025]

theorem ni_all_nonneg (g : ℚ) (res : Bool) (hg : 0 ≤ g) :
    0 ≤ (calculateNationalInsuranceAndHealth g res).national_insurance ∧
    0 ≤ (calculateNationalInsuranceAndHealth g res).health_tax ∧
    0 ≤ (calculateNationalInsuranceAndHealth g res).breakdown.ni_breakdown.low_part ∧
    0 ≤ (calculateNationalInsuranceAndHealth g res).breakdown.ni_breakdown.high_part ∧
    0 ≤ (calculateNationalInsuranceAndHealth g res).breakdown.health_breakdown.low_part ∧
    0 ≤ (calculateNationalInsuranceAndHealth g res).breakdown.health_breakdown.high_part := by
  have hlow : (0:ℚ) ≤ min (min g 50695) 7522 :=
    le_min (le_min hg (by norm_num)) (by norm_num)
  have hhigh : (0:ℚ) ≤ max 0 (min g 50695 - 7522) := le_max_left _ _
  rw [niAmounts g res hg]
  have h1 : (0:ℚ) ≤ min (min g 50695) 7522 * 0.0104 := mul_nonneg hlow (by norm_num)
  have h2 : (0:ℚ) ≤ max 0 (min g 50695 - 7522) * 0.07 := mul_nonneg hhigh (by norm_num)
  have h3 : (0:ℚ) ≤ min (min g 50695) 7522 * 0.0323 := mul_nonneg hlow (by norm_num)
  have h4 : (0:ℚ) ≤ max 0 (min g 50695 - 7522) * 0.0517 := mul_nonneg hhigh (by norm_num)
  cases res
  · exact ⟨add_nonneg h1 h2, by simp, h1, h2, by simp, by simp⟩
  · exact ⟨add_nonneg h1 h2, by simp [add_nonneg h3 h4], h1, h2, by simp [h3], by simp [h4]⟩

/-- C3 counterexample: the input `c3CexInput` satisfies the claim's
well-formedness hypotheses (non-negative gross, no bonus, no deductions, no
children, non-negative custom pension rates, no custom study fund), yet the
result's `credit_points.manual` and `taxable_income` fields are negative while
`net` is not the offending field. -/
theorem c3_counterexample :
    0 ≤ c3CexInput.gross_monthly ∧
    c3CexInput.bonus_current_month = none ∧
    c3CexInput.manual_deductions_monthly = none ∧
    c3CexInput.children = [] ∧
    (∀ p, c3CexInput.custom_pension = some p → 0 ≤ p.employee_rate ∧ 0 ≤ p.employer_rate) ∧
    c3CexInput.custom_study_fund = none ∧
    (calculateSalary c3CexInput).credit_points.manual < 0 ∧
    (calculateSalary c3CexInput).taxable_income < 0 := by
  refine ⟨by norm_num [c3CexInput, c1Input], rfl, rfl, rfl, ?_, rfl, ?_, ?_⟩
  · intro p hp
    have hpv : p = { employee_rate := 2, employer_rate := 0, base_salary_only := false } := by
      simpa [c3CexInput, c1Input] using hp.symm
    rw [hpv]
    norm_num
  · norm_num [calculateSalary, c3CexInput, c1Input]
  · norm_num [calculateSalary, calculateContributions, c3CexInput, c1Input]

/-- C3 (amended): for every well-formed input — non-negative gross, bonus,
manual deductions and children ages, custom rate pairs non-negative with the
pension employee rate at most 1 — every field of the result is non-negative
except `net` and the credit-point fields `manual`/`total`/`total_value` that
echo the possibly-negative manual credit-point input; and
`income_tax_after_credits = max(0, income_tax_before_credits − credit value)`. -/
theorem c3_nonneg_fields (input : CalculationInput)
    (hg0 : 0 ≤ input.gross_monthly)
    (hb : 0 ≤ input.bonus_current_month.getD 0)
    (hd : 0 ≤ input.manual_deductions_monthly.getD 0)
    (_hch : ∀ c ∈ input.children, 0 ≤ c.age)
    (hp : ∀ p, input.custom_pension = some p →
          0 ≤ p.employee_rate ∧ p.employee_rate ≤ 1 ∧ 0 ≤ p.employer_rate)
    (hs : ∀ s, input.custom_study_fund = some s →
          0 ≤ s.employee_rate ∧ 0 ≤ s.employer_rate) :
    0 ≤ (calculateSalary input).gross ∧
    0 ≤ (calculateSalary input).taxable_income ∧
    0 ≤ (calculateSalary input).income_tax_before_credits ∧
    0 ≤ (calculateSalary input).credit_points.auto ∧
    0 ≤ (calculateSalary input).credit_points.value_monthly ∧
    (calculateSalary input).income_tax_after_credits
      = max 0 ((calculateSalary input).income_tax_before_credits
          - (calculateSalary input).credit_points.total_value) ∧
    0 ≤ (calculateSalary input).income_tax_after_credits ∧
    0 ≤ (calculateSalary input).national_insurance ∧
    0 ≤ (calculateSalary input).health_tax ∧
    0 ≤ (calculateSalary input).pension_employee ∧
    0 ≤ (calculateSalary input).study_fund_employee ∧
    0 ≤ (calculateSalary input).manual_deductions ∧
    0 ≤ (calculateSalary input).total_deductions ∧
    0 ≤ (calculateSalary input).employer_cost ∧
    0 ≤ (calculateSalary input).breakdown.ni_breakdown.low_part ∧
    0 ≤ (calculateSalary input).breakdown.ni_breakdown.high_part ∧
    0 ≤ (calculateSalary input).breakdown.health_breakdown.low_part ∧
    0 ≤ (calculateSalary input).breakdown.health_breakdown.high_part ∧
    0 ≤ (calculateSalary input).breakdown.contributions.pension_employee ∧
    0 ≤ (calculateSalary input).breakdown.contributions.pension_employer ∧
    0 ≤ (calculateSalary input).breakdown.contributions.study_fund_employee ∧
    0 ≤ (calculateSalary input).breakdown.contributions.study_fund_employer ∧
    (∀ e ∈ (calculateSalary input).breakdown.tax_by_bracket,
       0 ≤ e.amount ∧ 0 ≤ e.taxable_amount) := by
  have hg : 0 ≤ input.gross_monthly + input.bonus_current_month.getD 0 := add_nonneg hg0 hb
  have hgg : input.gross_monthly ≤ input.gross_monthly + input.bonus_current_month.getD 0 :=
    le_add_of_nonneg_right hb
  have hcb := contributions_bounds (input.gross_monthly + input.bonus_current_month.getD 0)
    input hg0 hgg hp hs
  have hni := ni_all_nonneg (input.gross_monthly + input.bonus_current_month.getD 0)
    input.is_resident hg
  have hcred := calculateCreditPoints_nonneg input
  have htax : 0 ≤ (calculateIncomeTax ((input.gross_monthly
      + input.bonus_current_month.getD 0
      - (calculateContributions (input.gross_monthly + input.bonus_current_month.getD 0)
          input).pension_employee) * 12)).tax :=
    incomeTaxLoop_tax_nonneg _ brackets2025_rate_nonneg _
  have hbrk := incomeTaxLoop_breakdown_nonneg _ brackets2025_rate_nonneg
    ((input.gross_monthly + input.bonus_current_month.getD 0
      - (calculateContributions (input.gross_monthly + input.bonus_current_month.getD 0)
          input).pension_employee) * 12)
  exact ⟨hg,
    sub_nonneg.mpr hcb.2.1,
    div_nonneg htax (by norm_num),
    hcred,
    by norm_num [calculateSalary, TAX_SETTINGS_2025],
    rfl,
    le_max_left _ _,
    hni.1,
    hni.2.1,
    hcb.1,
    hcb.2.2.2.1,
    hd,
    add_nonneg (add_nonneg (add_nonneg (add_nonneg (add_nonneg (le_max_left _ _) hni.1)
      hni.2.1) hcb.1) hcb.2.2.2.1) hd,
    add_nonneg (add_nonneg (add_nonneg hg (mul_nonneg hg (by norm_num))) hcb.2.2.1)
      hcb.2.2.2.2,
    hni.2.2.1,
    hni.2.2.2.1,
    hni.2.2.2.2.1,
    hni.2.2.2.2.2,
    hcb.1,
    hcb.2.2.1,
    hcb.2.2.2.1,
    hcb.2.2.2.2,
    hbrk⟩

theorem c3_witness :
    0 ≤ (calculateSalary c8Input).gross ∧
    0 ≤ (calculateSalary c8Input).taxable_income ∧
    0 ≤ (calculateSalary c8Input).income_tax_before_credits ∧
    0 ≤ (calculateSalary c8Input).credit_points.auto ∧
    0 ≤ (calculateSalary c8Input).credit_points.value_monthly ∧
    (calculateSalary c8Input).income_tax_after_credits
      = max 0 ((calculateSalary c8Input).income_tax_before_credits
          - (calculateSalary c8Input).credit_points.total_value) ∧
    0 ≤ (calculateSalary c8Input).income_tax_after_credits ∧
    0 ≤ (calculateSalary c8Input).national_insurance ∧
    0 ≤ (calculateSalary c8Input).health_tax ∧
    0 ≤ (calculateSalary c8Input).pension_employee ∧
    0 ≤ (calculateSalary c8Input).study_fund_employee ∧
    0 ≤ (calculateSalary c8Input).manual_deductions ∧
    0 ≤ (calculateSalary c8Input).total_deductions ∧
    0 ≤ (calculateSalary c8Input).employer_cost ∧
    0 ≤ (calculateSalary c8Input).breakdown.ni_breakdown.low_part ∧
    0 ≤ (calculateSalary c8Input).breakdown.ni_breakdown.high_part ∧
    0 ≤ (calculateSalary c8Input).breakdown.health_breakdown.low_part ∧
    0 ≤ (calculateSalary c8Input).breakdown.health_breakdown.high_part ∧
    0 ≤ (calculateSalary c8Input).breakdown.contributions.pension_employee ∧
    0 ≤ (calculateSalary c8Input).breakdown.contributions.pension_employer ∧
    0 ≤ (calculateSalary c8Input).breakdown.contributions.study_fund_employee ∧
    0 ≤ (calculateSalary c8Input).breakdown.contributions.study_fund_employer ∧
    (∀ e ∈ (calculateSalary c8Input).breakdown.tax_by_bracket,
       0 ≤ e.amount ∧ 0 ≤ e.taxable_amount) :=
  c3_nonneg_fields c8Input
    (by norm_num [c8Input, c1Input])
    (by norm_num [c8Input, c1Input])
    (by norm_num [c8Input, c1Input])
    (by simp [c8Input, c1Input])
    (by
      intro p hp
      have hpv : p = { employee_rate := 0.06, employer_rate := 0.065, base_salary_only := true } := by
        simpa [c8Input, c1Input] using hp.symm
      rw [hpv]
      norm_num)
    (by intro s hs; simp [c8Input, c1Input] at hs)
